import Mathlib

/-!
# AirGrist migration engine — verification of the natural-language spec

Shallow embedding of the AirGrist migration engine (`src/lib/migration.ts` and
`src/lib/grist.ts`) and proofs about it.

Modelling conventions:
* JavaScript values flowing through the record transformer are modelled by the
  inductive `AirtableValue` (string / number / boolean scalar, array of
  scalars, `null`, or any other object).  JS numbers are modelled as `Int`
  (no claim depends on float behaviour).
* JS objects used as string-keyed dictionaries are modelled as association
  lists in key-insertion order; assignment (`obj[k] = v`) is `objUpd`, which
  overwrites in place when the key is present and appends otherwise — this is
  exactly the observable key-order/overwrite behaviour of a JS object literal.
* `async` functions performing I/O are interpreted against a pure environment
  (`Env`) of oracles describing the remote services' responses; a rejected
  promise / thrown exception is `Except.error`, and each interpreter also
  returns the trace of observable effects it produced (progress events,
  batch-send calls) so that claims about emitted events and issued calls can
  be stated.
-/

namespace AirGrist

/-- Errors: a remote API error (`GristApiError`-like), a JS `TypeError`
(raised e.g. by reading a property of `undefined`), or any other error. -/
inductive Err where
  | api (status : Nat) (msg : String)
  | typeError (msg : String)
  | other (msg : String)
deriving DecidableEq, Repr

/-- A scalar JS value as it appears inside Airtable record fields. -/
inductive Scalar where
  | s (v : String)
  | n (v : Int)
  | b (v : Bool)
deriving DecidableEq, Repr

/-- A JS value of an Airtable record field: a scalar, an array of scalars,
`null`, or any other value (object, undefined, …) which the transformer also
sends to `null`. -/
inductive AirtableValue where
  | scalar (v : Scalar)
  | arr (l : List Scalar)
  | null
  | obj
deriving DecidableEq, Repr

/-- A coerced Grist cell value as produced by `airtableToGristRecord`:
a scalar, a (heterogeneous) list of scalars — used for the `"L"`-tagged list
encoding — or `null`. -/
inductive GristValue where
  | scalar (v : Scalar)
  | list (l : List Scalar)
  | null
deriving DecidableEq, Repr

/-- JS object assignment `m[k] = v` on a string-keyed dictionary represented
as an association list in key-insertion order: overwrite in place if the key
exists, append otherwise. -/
def objUpd {α : Type} (m : List (String × α)) (k : String) (v : α) :
    List (String × α) :=
  if m.any (fun p => p.1 == k) then
    m.map (fun p => if p.1 == k then (k, v) else p)
  else m ++ [(k, v)]

/-- An Airtable record (`{ fields: Record<string, AirtableFieldValue> }`);
only `fields` is used by the migration code. -/
structure AirtableRecordT where
  fields : List (String × AirtableValue)
deriving DecidableEq, Repr

/-- A transformed Grist record: destination column id ↦ coerced value. -/
abbrev GristRecordT := List (String × GristValue)

/-- The value-coercion step of `airtableToGristRecord` (migration.ts lines
91–101): string/number/boolean pass through, an array of length 1 unwraps to
its element, any other array becomes `["L", ...value]`, everything else
becomes `null`. -/
def coerceValue : AirtableValue → GristValue
  | .scalar v => .scalar v
  | .arr [x] => .scalar x
  | .arr l => .list (Scalar.s "L" :: l)
  | .null => .null
  | .obj => .null

/-- The `for (const field in airtableRecord.fields)` loop of
`airtableToGristRecord`, threading the accumulated output object: a field is
written only when `gristTableMapping[field]` is truthy, i.e. present and not
the empty string. -/
def transformFields (mapping : List (String × String)) :
    List (String × AirtableValue) → GristRecordT → GristRecordT
  | [], acc => acc
  | (f, v) :: rest, acc =>
    let result := coerceValue v
    let acc' :=
      match mapping.lookup f with
      | some d => if d = "" then acc else objUpd acc d result
      | none => acc
    transformFields mapping rest acc'

/-- `airtableToGristRecord` from migration.ts (lines 82–109). -/
def airtableToGristRecord (airtableRecord : AirtableRecordT)
    (gristTableMapping : List (String × String)) : GristRecordT :=
  transformFields gristTableMapping airtableRecord.fields []

end AirGrist

open AirGrist

namespace AirGrist

/-! ## grist.ts: field-type and table translation -/

/-- The Grist field type enum (`GristFieldType` in grist.ts). -/
inductive GristFieldType where
  | TEXT | NUMERIC | INT | DATE | DATETIME | BOOL | CHOICE | CHOICE_LIST
deriving DecidableEq, Repr

/-- One Airtable select choice (`{ name: string }`). -/
structure AirtableChoice where
  name : String
deriving DecidableEq, Repr

/-- The `options` object of an Airtable select field. -/
structure AirtableOptions where
  choices : List AirtableChoice
deriving DecidableEq, Repr

/-- An Airtable field definition: stable id, display name, type tag, and
(optionally) the select options.  `options` is `none` when the field carries
no options object. -/
structure AirtableField where
  id : String
  name : String
  type : String
  options : Option AirtableOptions
deriving DecidableEq, Repr

/-- The widgetOptions payload produced for multi-select fields
(`{ choices: [...names] }`); kept structured, its JSON serialization is
opaque to the claims. -/
structure WidgetOptions where
  choices : List String
deriving DecidableEq, Repr

/-- The static `typeMapping` lookup table of `airtableToGristFieldType`
(grist.ts lines 269–299), in source order. -/
def typeMapping : List (String × GristFieldType) :=
  [("singleLineText", .TEXT),
   ("multilineText", .TEXT),
   ("richText", .TEXT),
   ("email", .TEXT),
   ("url", .TEXT),
   ("phoneNumber", .TEXT),
   ("number", .NUMERIC),
   ("currency", .NUMERIC),
   ("percent", .NUMERIC),
   ("date", .DATE),
   ("dateTime", .DATETIME),
   ("checkbox", .BOOL),
   ("singleSelect", .CHOICE),
   ("multipleSelects", .CHOICE_LIST),
   ("formula", .TEXT),
   ("attachment", .TEXT),
   ("autoNumber", .INT),
   ("barcode", .TEXT),
   ("button", .TEXT),
   ("collaborator", .TEXT),
   ("count", .INT),
   ("createdBy", .TEXT),
   ("createdTime", .DATETIME),
   ("duration", .NUMERIC),
   ("lastModifiedBy", .TEXT),
   ("lastModifiedTime", .DATETIME),
   ("lookup", .TEXT),
   ("rating", .INT),
   ("rollup", .TEXT)]

/-- `airtableToGristFieldType` (grist.ts lines 266–311).  The JS
`typeMapping[type] || TEXT` is a default to `TEXT` on a missing key (every
enum value is a nonempty, hence truthy, string).  For `CHOICE_LIST` the code
reads `airtableField.options.choices`; when the field has no `options` this
is a `TypeError` on `undefined`, modelled as `none`. -/
def airtableToGristFieldType (airtableField : AirtableField) :
    Option (GristFieldType × Option WidgetOptions) :=
  let gristType := (typeMapping.lookup airtableField.type).getD .TEXT
  if gristType = .CHOICE_LIST then
    match airtableField.options with
    | none => none
    | some opts =>
        some (gristType, some ⟨opts.choices.map (fun c => c.name)⟩)
  else
    some (gristType, none)

/-- A Grist column produced by `airtableToGristTable`: the `fields` payload
holds label, type and the optional (serialized, here kept structured)
widgetOptions. -/
structure GristColumn where
  id : String
  label : String
  type : GristFieldType
  widgetOptions : Option WidgetOptions
deriving DecidableEq, Repr

/-- A Grist table schema (`GristTable` in grist.ts). -/
structure GristTableT where
  id : String
  columns : List GristColumn
deriving DecidableEq, Repr

/-- An Airtable table schema (`AirtableTable`): name and ordered fields. -/
structure AirtableTableT where
  name : String
  fields : List AirtableField
deriving DecidableEq, Repr

/-- The `airtableTable.fields.map(...)` body of `airtableToGristTable`:
builds the column list while accumulating `mapping[field.name] = field.id`
by JS object assignment.  Propagates the `TypeError` (`none`) that
`airtableToGristFieldType` can raise. -/
def buildColumns : List AirtableField → List (String × String) →
    Option (List GristColumn × List (String × String))
  | [], m => some ([], m)
  | f :: fs, m =>
    let m' := objUpd m f.name f.id
    match airtableToGristFieldType f with
    | none => none
    | some (gristType, widgetOptions) =>
      match buildColumns fs m' with
      | none => none
      | some (cols, mFinal) =>
        some (⟨f.id, f.name, gristType, widgetOptions⟩ :: cols, mFinal)

/-- `airtableToGristTable` (grist.ts lines 316–346): returns the Grist table
schema and the field-name → column-id mapping, or `none` when the
translation throws. -/
def airtableToGristTable (airtableTable : AirtableTableT) :
    Option (GristTableT × List (String × String)) :=
  match buildColumns airtableTable.fields [] with
  | none => none
  | some (cols, mapping) => some (⟨airtableTable.name, cols⟩, mapping)

/-! ## migration.ts: batched transfer and multi-table orchestration

The async functions are interpreted against a pure environment of oracles
(`Env`) describing the remote services' responses.  Each interpreter returns
the observable effects alongside the `Except` outcome: `migrateTable` returns
the list of `addRecordsToTable` calls it issued (in issue order, with the
batch index), and `migrateTables` returns the list of progress events it
emitted (in emission order). -/

/-- Oracles for the two remote services.  `addRecordsToTable` additionally
receives the per-table batch index so a response may vary per call. -/
structure Env where
  createDocument : Nat → String → Except Err String
  getTableSchema : String → String → Except Err AirtableTableT
  addTablesToDocument : String → List GristTableT → Except Err (List String)
  getAllRecords : String → String → Except Err (List AirtableRecordT)
  addRecordsToTable : String → String → Nat → List GristRecordT → Except Err Unit

/-- The batch size constant of `migrateTable` (migration.ts line 71). -/
def batchSize : Nat := 100

/-- The slicing performed by `for (let i = 0; i < n; i += batchSize)
slice(i, i + batchSize)`: consecutive chunks of at most `batchSize`
records, in order. -/
def chunks {α : Type} (B : Nat) : List α → List (List α)
  | [] => []
  | x :: xs => (x :: xs.take (B - 1)) :: chunks B (xs.drop (B - 1))
termination_by l => l.length
decreasing_by
  simp only [List.length_drop, List.length_cons]
  omega

/-- The sequential send loop over the batches: each batch is sent in order;
the first `Except.error` aborts the loop and is returned.  The first
component is the list of issued calls (batch index, batch). -/
def sendBatches (send : Nat → List GristRecordT → Except Err Unit) :
    Nat → List (List GristRecordT) →
    List (Nat × List GristRecordT) × Except Err Unit
  | _, [] => ([], .ok ())
  | k, b :: bs =>
    match send k b with
    | .ok _ =>
      let rest := sendBatches send (k + 1) bs
      ((k, b) :: rest.1, rest.2)
    | .error e => ([(k, b)], .error e)

/-- The configuration record of `migrateTable` (`MigrationConfig`). -/
structure MigrationConfigT where
  baseId : String
  srcTableId : String
  documentId : String
  destTableId : String
  mapping : List (String × String)
deriving DecidableEq, Repr

/-- `migrateTable` (migration.ts lines 55–80): fetch all records, return
early when there are none, transform each record, then send the transformed
records in batches of `batchSize`.  Returns the issued batch-send calls and
the outcome. -/
def migrateTable (env : Env) (config : MigrationConfigT) :
    List (Nat × List GristRecordT) × Except Err Unit :=
  match env.getAllRecords config.baseId config.srcTableId with
  | .error e => ([], .error e)
  | .ok airtableRecords =>
    if airtableRecords.length = 0 then ([], .ok ())
    else
      let gristRecords :=
        airtableRecords.map (fun r => airtableToGristRecord r config.mapping)
      sendBatches (env.addRecordsToTable config.documentId config.destTableId)
        0 (chunks batchSize gristRecords)

/-- Progress-event statuses (`'fetching' | 'creating' | 'migrating' |
'complete' | 'error'`). -/
inductive Status where
  | fetching | creating | migrating | complete | error
deriving DecidableEq, Repr

/-- A progress event as passed to `onProgress`. -/
structure ProgressEvent where
  currentTable : Nat
  totalTables : Nat
  tableName : String
  status : Status
  error : Option Err
deriving DecidableEq, Repr

/-- The `MigrationResult` record. -/
structure MigrationResult where
  documentId : String
  tableIds : List String
  errors : List Err
deriving DecidableEq, Repr

/-- One table prepared by the schema-fetch loop of `migrateTables`: its
source id, fetched schema, translated Grist table and field mapping. -/
structure PreparedTable where
  tableId : String
  schema : AirtableTableT
  gristTable : GristTableT
  mapping : List (String × String)
deriving DecidableEq, Repr

/-- The `for (const tableId of source.tableIds)` schema loop of
`migrateTables` (lines 143–154): fetch each schema and translate it.  A
schema-fetch rejection propagates, and a `TypeError` thrown by
`airtableToGristTable` propagates as well. -/
def fetchAndTranslate (env : Env) (baseId : String) :
    List String → Except Err (List PreparedTable)
  | [] => .ok []
  | tableId :: rest =>
    match env.getTableSchema baseId tableId with
    | .error e => .error e
    | .ok tableSchema =>
      match airtableToGristTable tableSchema with
      | none => .error (.typeError "Cannot read properties of undefined")
      | some (gristTable, gristTableMapping) =>
        match fetchAndTranslate env baseId rest with
        | .error e => .error e
        | .ok prepared =>
          .ok (⟨tableId, tableSchema, gristTable, gristTableMapping⟩ :: prepared)

/-- The outcome of the data migration of the table at index `i`
(the `migrateTable` call of migration.ts lines 184–196). -/
def tableOutcome (env : Env) (baseId documentId : String)
    (createdTableIds : List String) (i : Nat) (p : PreparedTable) :
    Except Err Unit :=
  (migrateTable env
    ⟨baseId, p.tableId, documentId, createdTableIds.getD i "", p.mapping⟩).2

/-- The per-table migration loop of `migrateTables` (lines 170–208),
returning the emitted events, the accumulated `tableIds` and the accumulated
`errors`.  On a per-table failure the error is recorded, an error event is
emitted, and the loop continues with the next table. -/
def migrateLoop (env : Env) (baseId documentId : String)
    (createdTableIds : List String) (total : Nat) :
    Nat → List PreparedTable →
    List ProgressEvent × List String × List Err
  | _, [] => ([], [], [])
  | i, p :: rest =>
    let gristTableId := createdTableIds.getD i ""
    let evMigrating : ProgressEvent :=
      ⟨i + 1, total, p.schema.name, .migrating, none⟩
    match tableOutcome env baseId documentId createdTableIds i p with
    | .ok _ =>
      let r := migrateLoop env baseId documentId createdTableIds total (i + 1) rest
      (evMigrating :: r.1, gristTableId :: r.2.1, r.2.2)
    | .error e =>
      let evError : ProgressEvent :=
        ⟨i + 1, total, p.schema.name, .error, some e⟩
      let r := migrateLoop env baseId documentId createdTableIds total (i + 1) rest
      (evMigrating :: evError :: r.1, r.2.1, e :: r.2.2)

/-- `migrateTables` (migration.ts lines 111–229), interpreted against `env`:
emit `creating`, create the document; emit `fetching`, fetch and translate
all schemas; emit `creating`, create the tables; run the per-table loop;
emit `complete` and resolve.  A failure in any of the three setup steps is
caught by the outer handler, which emits an `error` event with
`currentTable = 0` and re-throws.  Returns the emitted events and the
outcome. -/
def migrateTables (env : Env) (baseId : String) (tableIds : List String)
    (workspaceId : Nat) (documentName : String) :
    List ProgressEvent × Except Err MigrationResult :=
  let n := tableIds.length
  let evCreating : ProgressEvent := ⟨0, n, "", .creating, none⟩
  match env.createDocument workspaceId documentName with
  | .error e => ([evCreating, ⟨0, n, "", .error, some e⟩], .error e)
  | .ok documentId =>
    let evFetching : ProgressEvent := ⟨0, n, "", .fetching, none⟩
    match fetchAndTranslate env baseId tableIds with
    | .error e =>
      ([evCreating, evFetching, ⟨0, n, "", .error, some e⟩], .error e)
    | .ok prepared =>
      let gristTables := prepared.map (fun p => p.gristTable)
      match env.addTablesToDocument documentId gristTables with
      | .error e =>
        ([evCreating, evFetching, evCreating, ⟨0, n, "", .error, some e⟩],
         .error e)
      | .ok createdTableIds =>
        let r := migrateLoop env baseId documentId createdTableIds n 0 prepared
        (([evCreating, evFetching, evCreating] ++ r.1) ++
           [⟨n, n, "", .complete, none⟩],
         .ok ⟨documentId, r.2.1, r.2.2⟩)

/-- The destination column id a field name is actually written under by
`airtableToGristRecord`: the mapping entry when it is truthy (present and
not the empty string), `none` otherwise. -/
def mappedDest (mapping : List (String × String)) (f : String) :
    Option String :=
  match mapping.lookup f with
  | some d => if d = "" then none else some d
  | none => none

/-- The destination table id the loop records for entry `jq = (index,
prepared table)` when that table's data migration succeeds; `none` on
failure. -/
def succTableId (env : Env) (baseId documentId : String)
    (createdTableIds : List String) (jq : Nat × PreparedTable) :
    Option String :=
  match tableOutcome env baseId documentId createdTableIds jq.1 jq.2 with
  | .ok _ => some (createdTableIds.getD jq.1 "")
  | .error _ => none

/-- The error the loop records for entry `jq` when that table's data
migration fails; `none` on success. -/
def failErr (env : Env) (baseId documentId : String)
    (createdTableIds : List String) (jq : Nat × PreparedTable) :
    Option Err :=
  match tableOutcome env baseId documentId createdTableIds jq.1 jq.2 with
  | .ok _ => none
  | .error e => some e

/-! ## Concrete fixtures (used by witnesses and counterexamples) -/

/-- The record fields of the spec's §8 value-coercion test vector. -/
def exFields : List (String × AirtableValue) :=
  [("Text", .scalar (.s "Hello")), ("Number", .scalar (.n 42)),
   ("Boolean", .scalar (.b true)),
   ("Array", .arr [.s "item1", .s "item2"]),
   ("SingleItemArray", .arr [.s "single"]), ("Missing", .null)]

/-- The full field mapping of the spec's §8 value-coercion test vector. -/
def exMapping : List (String × String) :=
  [("Text", "text_field"), ("Number", "number_field"),
   ("Boolean", "bool_field"), ("Array", "array_field"),
   ("SingleItemArray", "single_array_field"), ("Missing", "missing_field")]

/-- An environment whose document creation always rejects (all other
oracles are irrelevant to the runs it is used in). -/
def envFailDoc : Env :=
  { createDocument := fun _ _ => .error (.api 500 "boom")
    getTableSchema := fun _ _ => .error (.other "unused")
    addTablesToDocument := fun _ _ => .error (.other "unused")
    getAllRecords := fun _ _ => .error (.other "unused")
    addRecordsToTable := fun _ _ _ _ => .error (.other "unused") }

/-- An environment for a two-table run in which every setup step succeeds,
table `"t1"`'s record fetch rejects and table `"t2"` has no records. -/
def envTwo : Env :=
  { createDocument := fun _ _ => .ok "doc1"
    getTableSchema := fun _ tid => .ok ⟨tid, []⟩
    addTablesToDocument := fun _ _ => .ok ["g1", "g2"]
    getAllRecords := fun _ tid =>
      if tid = "t1" then .error (.api 502 "fetch failed") else .ok []
    addRecordsToTable := fun _ _ _ _ => .ok () }

/-- An environment serving 150 empty records for any table, with every
batch send succeeding. -/
def envBatch : Env :=
  { createDocument := fun _ _ => .ok "doc1"
    getTableSchema := fun _ tid => .ok ⟨tid, []⟩
    addTablesToDocument := fun _ _ => .ok ["g1"]
    getAllRecords := fun _ _ => .ok (List.replicate 150 ⟨[]⟩)
    addRecordsToTable := fun _ _ _ _ => .ok () }

/-- An environment serving 250 empty records, whose batch sends succeed for
batch 0 and reject from batch 1 on. -/
def envBatchFail : Env :=
  { createDocument := fun _ _ => .ok "doc1"
    getTableSchema := fun _ tid => .ok ⟨tid, []⟩
    addTablesToDocument := fun _ _ => .ok ["g1"]
    getAllRecords := fun _ _ => .ok (List.replicate 250 ⟨[]⟩)
    addRecordsToTable := fun _ _ k _ =>
      if k = 0 then .ok () else .error (.api 413 "too large") }

end AirGrist

namespace AirGrist

/-! ## Helper lemmas about `objUpd` and `transformFields` -/

theorem objUpd_of_not_mem {α : Type} {m : List (String × α)} {k : String}
    (v : α) (h : ∀ w, (k, w) ∉ m) : objUpd m k v = m ++ [(k, v)] := by
  unfold objUpd
  rw [if_neg]
  intro hany
  rw [List.any_eq_true] at hany
  obtain ⟨p, hpm, hpk⟩ := hany
  rw [beq_iff_eq] at hpk
  exact h p.2 (by rw [← hpk]; simpa using hpm)

theorem mem_objUpd {α : Type} {m : List (String × α)} {k x : String}
    {v w : α} (h : (x, w) ∈ objUpd m k v) : x = k ∨ ∃ u, (x, u) ∈ m := by
  unfold objUpd at h
  split at h
  · obtain ⟨p, hpm, hpe⟩ := List.mem_map.mp h
    by_cases hc : p.1 = k
    · simp only [hc, beq_self_eq_true, if_true] at hpe
      exact Or.inl (congrArg Prod.fst hpe).symm
    · simp only [beq_iff_eq, hc, if_false] at hpe
      exact Or.inr ⟨w, hpe ▸ hpm⟩
  · rcases List.mem_append.mp h with hm | hs
    · exact Or.inr ⟨w, hm⟩
    · simp only [List.mem_singleton, Prod.mk.injEq] at hs
      exact Or.inl hs.1

/-- The transformer's output on a field list is the accumulator followed by
one entry per truthily mapped field, with the coerced value — provided the
destination ids are fresh for the accumulator and pairwise distinct (so no
JS object assignment ever overwrites). -/
theorem transformFields_filterMap (mapping : List (String × String)) :
    ∀ (fields : List (String × AirtableValue)) (acc : GristRecordT),
      (∀ d, d ∈ fields.filterMap (fun fv => mappedDest mapping fv.1) →
        ∀ w, (d, w) ∉ acc) →
      (fields.filterMap (fun fv => mappedDest mapping fv.1)).Nodup →
      transformFields mapping fields acc =
        acc ++ fields.filterMap (fun fv =>
          (mappedDest mapping fv.1).map (fun d => (d, coerceValue fv.2)))
  | [], acc, _, _ => by simp [transformFields]
  | (f, v) :: rest, acc, hfresh, hnodup => by
    simp only [transformFields]
    cases hl : mapping.lookup f with
    | none =>
      have hmd : mappedDest mapping f = none := by
        simp [mappedDest, hl]
      simp only [hl]
      rw [transformFields_filterMap mapping rest acc
        (by
          intro d hd w
          exact hfresh d (by simp [hmd, hd]) w)
        (by simpa [hmd] using hnodup)]
      simp [hmd]
    | some d =>
      by_cases hde : d = ""
      · have hmd : mappedDest mapping f = none := by
          simp [mappedDest, hl, hde]
        simp only [hl]
        rw [if_pos hde]
        rw [transformFields_filterMap mapping rest acc
          (by
            intro d' hd' w
            exact hfresh d' (by simp [hmd, hd']) w)
          (by simpa [hmd] using hnodup)]
        simp [hmd]
      · have hmd : mappedDest mapping f = some d := by
          simp [mappedDest, hl, hde]
        simp only [hl, if_neg hde]
        have hdfresh : ∀ w, (d, w) ∉ acc :=
          hfresh d (by simp [hmd])
        rw [objUpd_of_not_mem _ hdfresh]
        have hrest :
            (rest.filterMap (fun fv => mappedDest mapping fv.1)).Nodup ∧
            d ∉ rest.filterMap (fun fv => mappedDest mapping fv.1) := by
          have := hnodup
          simp only [List.filterMap_cons, hmd] at this
          exact ⟨(List.nodup_cons.mp this).2, (List.nodup_cons.mp this).1⟩
        rw [transformFields_filterMap mapping rest (acc ++ [(d, coerceValue v)])
          (by
            intro d' hd' w hw
            rcases List.mem_append.mp hw with hw | hw
            · exact hfresh d' (by simp [hmd, hd']) w hw
            · simp only [List.mem_singleton, Prod.mk.injEq] at hw
              exact hrest.2 (hw.1 ▸ hd'))
          hrest.1]
        simp [List.filterMap_cons, hmd, List.append_assoc]

/-- Fields whose mapping entry is absent or the empty string leave the
accumulator untouched and may be removed from the field list. -/
theorem transformFields_skip (mapping : List (String × String)) (f : String)
    (h : mapping.lookup f = none ∨ mapping.lookup f = some "") :
    ∀ (fs₁ fs₂ : List (String × AirtableValue)) (v : AirtableValue)
      (acc : GristRecordT),
      transformFields mapping (fs₁ ++ (f, v) :: fs₂) acc =
        transformFields mapping (fs₁ ++ fs₂) acc
  | [], fs₂, v, acc => by
    rcases h with h | h <;> simp [transformFields, h]
  | (g, w) :: fs₁, fs₂, v, acc => by
    simp only [List.cons_append, transformFields]
    exact transformFields_skip mapping f h fs₁ fs₂ v _

/-- The transformer never writes a key that was not truthily mapped; in
particular the empty string is never a key of the output. -/
theorem transformFields_no_empty_key (mapping : List (String × String)) :
    ∀ (fields : List (String × AirtableValue)) (acc : GristRecordT)
      (v : GristValue),
      (∀ w, ("", w) ∉ acc) →
      ("", v) ∉ transformFields mapping fields acc
  | [], acc, v, hacc => hacc v
  | (f, x) :: rest, acc, v, hacc => by
    simp only [transformFields]
    cases hl : mapping.lookup f with
    | none => exact transformFields_no_empty_key mapping rest acc v hacc
    | some d =>
      by_cases hde : d = ""
      · simp only [hde, if_pos rfl]
        exact transformFields_no_empty_key mapping rest acc v hacc
      · simp only [if_neg hde]
        refine transformFields_no_empty_key mapping rest _ v ?_
        intro w hw
        rcases mem_objUpd hw with hk | ⟨u, hu⟩
        · exact hde hk.symm
        · exact hacc u hu

/-- With the empty mapping the loop never writes anything. -/
theorem transformFields_nil :
    ∀ (fields : List (String × AirtableValue)) (acc : GristRecordT),
      transformFields [] fields acc = acc
  | [], _ => rfl
  | (f, v) :: rest, acc => by
    simp only [transformFields, List.lookup]
    exact transformFields_nil rest acc

/-! ## C1 — value coercion in the record transformer -/

/-- C1: for every source record and field mapping (with pairwise-distinct
truthily-mapped destination ids, so no JS object assignment overwrites an
earlier one), `airtableToGristRecord` outputs, per mapped field in record
order, the field's value coerced as follows: a string, number or boolean
passes through unchanged; an array of length exactly 1 becomes its sole
element; an array of any other length (including 0) becomes a list headed
by the literal marker `"L"` followed by the original elements in order; any
other value (null or other object) becomes null. -/
theorem claim1_record_value_coercion
    (fields : List (String × AirtableValue))
    (mapping : List (String × String))
    (hnodup : (fields.filterMap (fun fv => mappedDest mapping fv.1)).Nodup) :
    airtableToGristRecord ⟨fields⟩ mapping =
      fields.filterMap (fun fv =>
        (mappedDest mapping fv.1).map (fun d => (d, coerceValue fv.2))) ∧
    (∀ v : Scalar, coerceValue (.scalar v) = .scalar v) ∧
    (∀ x : Scalar, coerceValue (.arr [x]) = .scalar x) ∧
    (∀ l : List Scalar, l.length ≠ 1 →
      coerceValue (.arr l) = .list (Scalar.s "L" :: l)) ∧
    coerceValue .null = .null ∧ coerceValue .obj = .null := by
  refine ⟨?_, fun v => rfl, fun x => rfl, ?_, rfl, rfl⟩
  · unfold airtableToGristRecord
    rw [transformFields_filterMap mapping fields [] (by simp) hnodup]
    simp
  · intro l hl
    match l with
    | [] => rfl
    | [x] => exact absurd rfl hl
    | x :: y :: t => rfl

/-- Witness for C1 at the spec's §8 test vector, together with the fully
evaluated output it forces. -/
theorem claim1_record_value_coercion_witness :
    (exFields.filterMap (fun fv => mappedDest exMapping fv.1)).Nodup ∧
    airtableToGristRecord ⟨exFields⟩ exMapping =
      exFields.filterMap (fun fv =>
        (mappedDest exMapping fv.1).map (fun d => (d, coerceValue fv.2))) ∧
    airtableToGristRecord ⟨exFields⟩ exMapping =
      [("text_field", .scalar (.s "Hello")),
       ("number_field", .scalar (.n 42)),
       ("bool_field", .scalar (.b true)),
       ("array_field", .list [.s "L", .s "item1", .s "item2"]),
       ("single_array_field", .scalar (.s "single")),
       ("missing_field", GristValue.null)] :=
  ⟨by decide,
   (claim1_record_value_coercion exFields exMapping (by decide)).1,
   by decide⟩

/-! ## C8 — unmapped fields are silently dropped -/

/-- C8: a field whose name is absent from the mapping is silently omitted —
removing such a field from the record leaves the transformer's output
unchanged — and for the empty mapping the output is the empty record
regardless of the record's contents. -/
theorem claim8_unmapped_fields_dropped (mapping : List (String × String))
    (f : String) (hnone : mapping.lookup f = none) :
    (∀ (fs₁ fs₂ : List (String × AirtableValue)) (v : AirtableValue),
      airtableToGristRecord ⟨fs₁ ++ (f, v) :: fs₂⟩ mapping =
        airtableToGristRecord ⟨fs₁ ++ fs₂⟩ mapping) ∧
    (∀ fields : List (String × AirtableValue),
      airtableToGristRecord ⟨fields⟩ [] = []) := by
  constructor
  · intro fs₁ fs₂ v
    exact transformFields_skip mapping f (Or.inl hnone) fs₁ fs₂ v []
  · intro fields
    exact transformFields_nil fields []

/-- Witness for C8: the spec's "unmapped fields dropped" vector — the
`Extra` field is removed without a trace. -/
theorem claim8_unmapped_fields_dropped_witness :
    (([("Name", "full_name"), ("Age", "user_age")] :
        List (String × String)).lookup "Extra" = none) ∧
    airtableToGristRecord
        ⟨[("Name", .scalar (.s "Bob")), ("Age", .scalar (.n 25)),
          ("Extra", .scalar (.s "x"))]⟩
        [("Name", "full_name"), ("Age", "user_age")] =
      airtableToGristRecord
        ⟨[("Name", .scalar (.s "Bob")), ("Age", .scalar (.n 25))]⟩
        [("Name", "full_name"), ("Age", "user_age")] :=
  ⟨by decide,
   (claim8_unmapped_fields_dropped [("Name", "full_name"), ("Age", "user_age")]
      "Extra" (by decide)).1
     [("Name", .scalar (.s "Bob")), ("Age", .scalar (.n 25))] []
     (.scalar (.s "x"))⟩

/-! ## C9 — fields mapped to the empty string are dropped (truthiness) -/

/-- C9: a field whose mapping entry is the empty string is dropped exactly
as if it were unmapped — the mapping entry is tested for truthiness, not
key presence — and consequently the output never contains the empty string
as a key. -/
theorem claim9_empty_string_mapping_dropped (mapping : List (String × String))
    (f : String) (hempty : mapping.lookup f = some "") :
    (∀ (fs₁ fs₂ : List (String × AirtableValue)) (v : AirtableValue),
      airtableToGristRecord ⟨fs₁ ++ (f, v) :: fs₂⟩ mapping =
        airtableToGristRecord ⟨fs₁ ++ fs₂⟩ mapping) ∧
    (∀ (fields : List (String × AirtableValue))
       (mapping' : List (String × String)) (v : GristValue),
      ("", v) ∉ airtableToGristRecord ⟨fields⟩ mapping') := by
  constructor
  · intro fs₁ fs₂ v
    exact transformFields_skip mapping f (Or.inr hempty) fs₁ fs₂ v []
  · intro fields mapping' v
    exact transformFields_no_empty_key mapping' fields [] v (by simp)

/-- Witness for C9: a field mapped to `""` vanishes from the output. -/
theorem claim9_empty_string_mapping_dropped_witness :
    (([("Secret", ""), ("Name", "full_name")] :
        List (String × String)).lookup "Secret" = some "") ∧
    airtableToGristRecord
        ⟨[("Secret", .scalar (.s "hide")), ("Name", .scalar (.s "Bob"))]⟩
        [("Secret", ""), ("Name", "full_name")] =
      airtableToGristRecord ⟨[("Name", .scalar (.s "Bob"))]⟩
        [("Secret", ""), ("Name", "full_name")] :=
  ⟨by decide,
   (claim9_empty_string_mapping_dropped [("Secret", ""), ("Name", "full_name")]
      "Secret" (by decide)).1 [] [("Name", .scalar (.s "Bob"))]
     (.scalar (.s "hide"))⟩

/-! ## C6 — field-type translation -/

/-- Only the `multipleSelects` entry of the lookup table maps to
`CHOICE_LIST`. -/
theorem lookup_eq_choiceList_iff (t : String) :
    typeMapping.lookup t = some .CHOICE_LIST ↔ t = "multipleSelects" := by
  unfold typeMapping
  simp only [List.lookup]
  repeat' split <;> simp_all

/-- C6 counterexample: the claim says the translation is total and never
fails, but on a `multipleSelects` field that carries no `options` object the
source reads `airtableField.options.choices` on `undefined` and throws a
`TypeError` (modelled as `none`). -/
theorem claim6_counterexample :
    airtableToGristFieldType ⟨"fldTags", "Tags", "multipleSelects", none⟩ =
      none := by decide

/-- C6 amended: for every source field that is not multi-choice, or that is
multi-choice and carries its options, the translation succeeds; a
recognized type tag maps per the lookup table, an unknown tag falls back to
`TEXT`, a multi-choice field yields widgetOptions carrying its enumerated
choice labels, and every other field yields no widgetOptions.  (A
multi-choice field without options makes the translation throw, refuting
totality as originally claimed.) -/
theorem claim6_field_type_translation (f : AirtableField)
    (h : f.type = "multipleSelects" → f.options.isSome) :
    ∃ gt wo, airtableToGristFieldType f = some (gt, wo) ∧
      gt = (typeMapping.lookup f.type).getD .TEXT ∧
      (typeMapping.lookup f.type = none → gt = .TEXT) ∧
      (∀ opts, f.options = some opts → f.type = "multipleSelects" →
        wo = some ⟨opts.choices.map (fun c => c.name)⟩) ∧
      (f.type ≠ "multipleSelects" → wo = none) := by
  by_cases hm : f.type = "multipleSelects"
  · have hlk : typeMapping.lookup f.type = some .CHOICE_LIST :=
      (lookup_eq_choiceList_iff f.type).mpr hm
    obtain ⟨opts, hopts⟩ := Option.isSome_iff_exists.mp (h hm)
    refine ⟨.CHOICE_LIST, some ⟨opts.choices.map (fun c => c.name)⟩, ?_, ?_,
      ?_, ?_, ?_⟩
    · unfold airtableToGristFieldType
      simp [hlk, hopts]
    · simp [hlk]
    · intro hnone; rw [hnone] at hlk; exact absurd hlk (by simp)
    · intro opts' hopts' _
      rw [hopts] at hopts'
      simp_all
    · intro hne; exact absurd hm hne
  · have hlk : typeMapping.lookup f.type ≠ some .CHOICE_LIST := by
      intro hc; exact hm ((lookup_eq_choiceList_iff f.type).mp hc)
    have hgt : (typeMapping.lookup f.type).getD .TEXT ≠ .CHOICE_LIST := by
      cases hc : typeMapping.lookup f.type with
      | none => simp
      | some g =>
        simp only [Option.getD_some]
        intro hg; exact hlk (by rw [hc, hg])
    refine ⟨(typeMapping.lookup f.type).getD .TEXT, none, ?_, rfl, ?_, ?_, ?_⟩
    · unfold airtableToGristFieldType
      simp [hgt]
    · intro hnone; simp [hnone]
    · intro opts _ hm'; exact absurd hm' hm
    · intro _; rfl

/-- Witness for C6 (amended) at a `multipleSelects` field with two choices:
the hypothesis holds and the translation evaluates as the theorem forces. -/
theorem claim6_field_type_translation_witness :
    ((AirtableField.mk "fldTags" "Tags" "multipleSelects"
        (some ⟨[⟨"Red"⟩, ⟨"Blue"⟩]⟩)).type = "multipleSelects" →
      (AirtableField.mk "fldTags" "Tags" "multipleSelects"
        (some ⟨[⟨"Red"⟩, ⟨"Blue"⟩]⟩)).options.isSome) ∧
    airtableToGristFieldType
        ⟨"fldTags", "Tags", "multipleSelects", some ⟨[⟨"Red"⟩, ⟨"Blue"⟩]⟩⟩ =
      some (.CHOICE_LIST, some ⟨["Red", "Blue"]⟩) := by
  refine ⟨fun _ => rfl, ?_⟩
  obtain ⟨gt, wo, heq, hgt, -, hwo, -⟩ :=
    claim6_field_type_translation
      ⟨"fldTags", "Tags", "multipleSelects", some ⟨[⟨"Red"⟩, ⟨"Blue"⟩]⟩⟩
      (fun _ => rfl)
  rw [heq, hgt, hwo ⟨[⟨"Red"⟩, ⟨"Blue"⟩]⟩ rfl rfl]
  decide

/-! ## C7 — column/mapping correspondence in the table translation -/

/-- When the field names are pairwise distinct (so no JS object assignment
to `mapping` overwrites an earlier entry) and fresh for the accumulator,
`buildColumns` appends one `(name, id)` entry per field to the mapping and
produces one column per field, whose id is the field's id. -/
theorem buildColumns_spec :
    ∀ (fs : List AirtableField) (m : List (String × String)),
      (fs.map (fun f => f.name)).Nodup →
      (∀ f ∈ fs, ∀ w, (f.name, w) ∉ m) →
      ∀ cols m', buildColumns fs m = some (cols, m') →
        m' = m ++ fs.map (fun f => (f.name, f.id)) ∧
        cols.map (fun c => c.id) = fs.map (fun f => f.id)
  | [], m, _, _, cols, m', h => by
    simp only [buildColumns, Option.some.injEq, Prod.mk.injEq] at h
    simp [← h.1, ← h.2]
  | f :: fs, m, hnodup, hfresh, cols, m', h => by
    simp only [buildColumns] at h
    rw [objUpd_of_not_mem _ (hfresh f (by simp))] at h
    cases hft : airtableToGristFieldType f with
    | none => rw [hft] at h; exact absurd h (by simp)
    | some gw =>
      obtain ⟨gt, wo⟩ := gw
      rw [hft] at h
      cases hbc : buildColumns fs (m ++ [(f.name, f.id)]) with
      | none => rw [hbc] at h; exact absurd h (by simp)
      | some cm =>
        obtain ⟨cols', mF⟩ := cm
        rw [hbc] at h
        simp only [Option.some.injEq, Prod.mk.injEq] at h
        have hn : (∀ x ∈ fs, ¬x.name = f.name) ∧
            (fs.map (fun f => f.name)).Nodup := by simpa using hnodup
        have ih := buildColumns_spec fs (m ++ [(f.name, f.id)]) hn.2
          (by
            intro g hg w hw
            rcases List.mem_append.mp hw with hw | hw
            · exact hfresh g (List.mem_cons_of_mem f hg) w hw
            · simp only [List.mem_singleton, Prod.mk.injEq] at hw
              exact hn.1 g hg hw.1)
          cols' mF hbc
        constructor
        · rw [← h.2, ih.1]
          simp [List.append_assoc]
        · rw [← h.1]
          simp [ih.2]

/-- C7 counterexample: on a schema with two fields that share the display
name `"A"` the mapping object retains a single (overwritten) entry while
two columns are produced — the number of columns does not equal the number
of mapping entries. -/
theorem claim7_counterexample :
    airtableToGristTable
        ⟨"T", [⟨"f1", "A", "singleLineText", none⟩,
               ⟨"f2", "A", "singleLineText", none⟩]⟩ =
      some (⟨"T", [⟨"f1", "A", .TEXT, none⟩, ⟨"f2", "A", .TEXT, none⟩]⟩,
            [("A", "f2")]) ∧
    ¬ ([(⟨"f1", "A", .TEXT, none⟩ : GristColumn),
        ⟨"f2", "A", .TEXT, none⟩].length =
       ([("A", "f2")] : List (String × String)).length) := by decide

/-- C7 amended: for every source table schema whose field names are
pairwise distinct and whose field ids are pairwise distinct, whenever the
translation succeeds, every value of the produced mapping occurs exactly
once among the ids of the produced columns, and the number of produced
columns equals the number of mapping entries.  (With duplicate field names
the JS mapping object loses entries to overwriting, refuting the claim as
stated over all schemas.) -/
theorem claim7_column_mapping_correspondence (t : AirtableTableT)
    (gt : GristTableT) (mapping : List (String × String))
    (hnames : (t.fields.map (fun f => f.name)).Nodup)
    (hids : (t.fields.map (fun f => f.id)).Nodup)
    (h : airtableToGristTable t = some (gt, mapping)) :
    mapping.length = gt.columns.length ∧
    mapping.map Prod.snd = gt.columns.map (fun c => c.id) ∧
    ∀ p ∈ mapping, (gt.columns.map (fun c => c.id)).count p.2 = 1 := by
  unfold airtableToGristTable at h
  cases hbc : buildColumns t.fields [] with
  | none => rw [hbc] at h; exact absurd h (by simp)
  | some cm =>
    obtain ⟨cols, m'⟩ := cm
    rw [hbc] at h
    simp only [Option.some.injEq, Prod.mk.injEq] at h
    obtain ⟨hspec, hcols⟩ :=
      buildColumns_spec t.fields [] hnames (by simp) cols m' hbc
    have hmap : mapping = t.fields.map (fun f => (f.name, f.id)) := by
      rw [← h.2, hspec]; simp
    have hcid : gt.columns.map (fun c => c.id) = t.fields.map (fun f => f.id) := by
      rw [← h.1]; exact hcols
    refine ⟨?_, ?_, ?_⟩
    · have hlen := congrArg List.length hcid
      simp only [List.length_map] at hlen
      simp [hmap, hlen]
    · rw [hmap, hcid]
      simp [Function.comp]
    · intro p hp
      rw [hcid]
      refine List.count_eq_one_of_mem hids ?_
      rw [hmap] at hp
      obtain ⟨f, hf, hfp⟩ := List.mem_map.mp hp
      rw [← hfp]
      exact List.mem_map_of_mem (fun f => f.id) hf

/-- Witness for C7 (amended) at a two-field schema with distinct names and
ids: the translation succeeds and the evaluated mapping and columns pair
up one-to-one. -/
theorem claim7_column_mapping_correspondence_witness :
    (([⟨"f1", "A", "singleLineText", none⟩,
       ⟨"f2", "B", "number", none⟩] :
        List AirtableField).map (fun f => f.name)).Nodup ∧
    (([⟨"f1", "A", "singleLineText", none⟩,
       ⟨"f2", "B", "number", none⟩] :
        List AirtableField).map (fun f => f.id)).Nodup ∧
    airtableToGristTable
        ⟨"T", [⟨"f1", "A", "singleLineText", none⟩,
               ⟨"f2", "B", "number", none⟩]⟩ =
      some (⟨"T", [⟨"f1", "A", .TEXT, none⟩, ⟨"f2", "B", .NUMERIC, none⟩]⟩,
            [("A", "f1"), ("B", "f2")]) ∧
    ([("A", "f1"), ("B", "f2")] : List (String × String)).length =
      (GristTableT.mk "T"
        [⟨"f1", "A", .TEXT, none⟩, ⟨"f2", "B", .NUMERIC, none⟩]).columns.length ∧
    ([("A", "f1"), ("B", "f2")] : List (String × String)).map Prod.snd =
      (GristTableT.mk "T"
        [⟨"f1", "A", .TEXT, none⟩,
         ⟨"f2", "B", .NUMERIC, none⟩]).columns.map (fun c => c.id) :=
  ⟨by decide, by decide, by decide,
   (claim7_column_mapping_correspondence
     ⟨"T", [⟨"f1", "A", "singleLineText", none⟩, ⟨"f2", "B", "number", none⟩]⟩
     ⟨"T", [⟨"f1", "A", .TEXT, none⟩, ⟨"f2", "B", .NUMERIC, none⟩]⟩
     [("A", "f1"), ("B", "f2")] (by decide) (by decide) (by decide)).1,
   (claim7_column_mapping_correspondence
     ⟨"T", [⟨"f1", "A", "singleLineText", none⟩, ⟨"f2", "B", "number", none⟩]⟩
     ⟨"T", [⟨"f1", "A", .TEXT, none⟩, ⟨"f2", "B", .NUMERIC, none⟩]⟩
     [("A", "f1"), ("B", "f2")] (by decide) (by decide) (by decide)).2.1⟩

/-! ## C4/C5 — batching in `migrateTable` -/

/-- Concatenating the chunks gives back the original list. -/
theorem chunks_flatten {α : Type} (B : Nat) (l : List α) :
    (chunks B l).flatten = l := by
  generalize hn : l.length = n
  induction n using Nat.strong_induction_on generalizing l with
  | _ n ih =>
    cases l with
    | nil => simp [chunks]
    | cons x xs =>
      subst hn
      rw [chunks]
      simp only [List.flatten_cons]
      rw [ih (xs.drop (B - 1)).length
        (by simp only [List.length_drop, List.length_cons]; omega)
        _ rfl]
      rw [List.cons_append, List.take_append_drop]

/-- There are exactly `⌈n / 100⌉` chunks of batch size 100. -/
theorem chunks_length (l : List GristRecordT) :
    (chunks batchSize l).length = (l.length + 99) / 100 := by
  simp only [batchSize]
  generalize hn : l.length = n
  induction n using Nat.strong_induction_on generalizing l with
  | _ n ih =>
    cases l with
    | nil =>
      simp only [chunks, List.length_nil]
      subst hn
      decide
    | cons x xs =>
      subst hn
      rw [chunks]
      simp only [List.length_cons]
      rw [ih (xs.drop (100 - 1)).length
        (by simp only [List.length_drop, List.length_cons]; omega)
        _ rfl]
      simp only [List.length_drop]
      have h100 : xs.length + 1 + 99 = xs.length + 100 := by omega
      rw [h100, Nat.add_div_right _ (by norm_num)]
      rcases le_or_lt xs.length 99 with hle | hlt
      · have h0 : xs.length - (100 - 1) = 0 := by omega
        rw [h0, Nat.div_eq_of_lt (show xs.length < 100 by omega)]
      · have h1 : xs.length - (100 - 1) + 99 = xs.length := by omega
        rw [h1]

/-- Every chunk of batch size 100 has at most 100 elements. -/
theorem chunks_length_le (l : List GristRecordT) :
    ∀ c ∈ chunks batchSize l, c.length ≤ batchSize := by
  simp only [batchSize]
  generalize hn : l.length = n
  induction n using Nat.strong_induction_on generalizing l with
  | _ n ih =>
    cases l with
    | nil => intro c hc; simp [chunks] at hc
    | cons x xs =>
      intro c hc
      rw [chunks] at hc
      rcases List.mem_cons.mp hc with rfl | hc
      · simp only [List.length_cons, List.length_take]
        have := Nat.min_le_left (100 - 1) xs.length
        omega
      · exact ih (xs.drop (100 - 1)).length
          (by subst hn; simp only [List.length_drop, List.length_cons]; omega)
          _ rfl c hc

/-- When every send succeeds, the issued calls carry exactly the chunk list
and the loop succeeds. -/
theorem sendBatches_all_ok (send : Nat → List GristRecordT → Except Err Unit)
    (h : ∀ k b, send k b = .ok ()) :
    ∀ (bs : List (List GristRecordT)) (k : Nat),
      (sendBatches send k bs).1.map Prod.snd = bs ∧
      (sendBatches send k bs).2 = .ok ()
  | [], k => by simp [sendBatches]
  | b :: bs, k => by
    simp only [sendBatches, h k b]
    have ih := sendBatches_all_ok send h bs (k + 1)
    simp [ih.1, ih.2]

/-- When the sends succeed up to batch `k` and batch `k` rejects, the loop
stops there: exactly the first `k + 1` batches were issued and the error is
returned. -/
theorem sendBatches_fail (send : Nat → List GristRecordT → Except Err Unit) :
    ∀ (bs : List (List GristRecordT)) (i k : Nat) (e : Err),
      k < bs.length →
      (∀ j, j < k → send (i + j) (bs.getD j []) = .ok ()) →
      send (i + k) (bs.getD k []) = .error e →
      (sendBatches send i bs).2 = .error e ∧
      (sendBatches send i bs).1.map Prod.snd = bs.take (k + 1)
  | [], i, k, e, hk, _, _ => absurd hk (by simp)
  | b :: bs, i, 0, e, hk, hok, hfail => by
    rw [Nat.add_zero, List.getD_cons_zero] at hfail
    simp [sendBatches, hfail]
  | b :: bs, i, k + 1, e, hk, hok, hfail => by
    have h0 : send i b = .ok () := by
      have := hok 0 (Nat.succ_pos k)
      simpa using this
    simp only [sendBatches, h0]
    have ih := sendBatches_fail send bs (i + 1) k e
      (by simpa using hk)
      (by
        intro j hj
        have := hok (j + 1) (by omega)
        rw [show i + (j + 1) = i + 1 + j by omega] at this
        simpa using this)
      (by
        rw [show i + 1 + k = i + (k + 1) by omega]
        simpa using hfail)
    simp [ih.1, ih.2]

/-- C4: whenever the record fetch returns `N` records and every batch send
succeeds, `migrateTable` issues exactly `⌈N / 100⌉` bulk-insert calls, each
carrying at most `batchSize = 100` records, the concatenation of the
dispatched batches (in issue order) is exactly the transformed record
sequence, and for `N = 0` no call is issued. -/
theorem claim4_batching (env : Env) (config : MigrationConfigT)
    (records : List AirtableRecordT)
    (hrecs : env.getAllRecords config.baseId config.srcTableId = .ok records)
    (hok : ∀ k b, env.addRecordsToTable config.documentId config.destTableId
      k b = .ok ()) :
    (migrateTable env config).1.length = (records.length + 99) / 100 ∧
    (∀ c ∈ (migrateTable env config).1, c.2.length ≤ batchSize) ∧
    ((migrateTable env config).1.map Prod.snd).flatten =
      records.map (fun r => airtableToGristRecord r config.mapping) ∧
    (records.length = 0 → (migrateTable env config).1 = []) := by
  by_cases h0 : records.length = 0
  · obtain rfl : records = [] := List.length_eq_zero.mp h0
    refine ⟨?_, ?_, ?_, ?_⟩ <;> simp [migrateTable, hrecs]
  · simp only [migrateTable, hrecs]
    rw [if_neg h0]
    have hall := sendBatches_all_ok _ (hok)
      (chunks batchSize (records.map
        (fun r => airtableToGristRecord r config.mapping))) 0
    refine ⟨?_, ?_, ?_, fun hc => absurd hc h0⟩
    · have hlen := congrArg List.length hall.1
      simp only [List.length_map] at hlen
      rw [hlen, chunks_length, List.length_map]
    · intro c hc
      refine chunks_length_le
        (records.map (fun r => airtableToGristRecord r config.mapping)) c.2 ?_
      rw [← hall.1]
      exact List.mem_map_of_mem Prod.snd hc
    · rw [hall.1, chunks_flatten]

/-- Witness for C4: `envBatch` serves 150 empty records, so two batches of
100 and 50 records are issued, concatenating back to the 150 transformed
records. -/
theorem claim4_batching_witness :
    envBatch.getAllRecords "base" "t1" = .ok (List.replicate 150 ⟨[]⟩) ∧
    (migrateTable envBatch ⟨"base", "t1", "doc1", "g1", []⟩).1.length =
      ((List.replicate 150 (⟨[]⟩ : AirtableRecordT)).length + 99) / 100 ∧
    ((migrateTable envBatch ⟨"base", "t1", "doc1", "g1", []⟩).1.map
        Prod.snd).flatten =
      (List.replicate 150 (⟨[]⟩ : AirtableRecordT)).map
        (fun r => airtableToGristRecord r []) :=
  ⟨rfl,
   (claim4_batching envBatch ⟨"base", "t1", "doc1", "g1", []⟩
     (List.replicate 150 ⟨[]⟩) rfl (fun _ _ => rfl)).1,
   (claim4_batching envBatch ⟨"base", "t1", "doc1", "g1", []⟩
     (List.replicate 150 ⟨[]⟩) rfl (fun _ _ => rfl)).2.2.1⟩

/-- C5: if the bulk-insert call for batch `k` rejects while all earlier
batches succeeded, `migrateTable` returns that error and only batches
`0..k` were issued — no batch after `k` is sent. -/
theorem claim5_batch_failfast (env : Env) (config : MigrationConfigT)
    (records : List AirtableRecordT) (k : Nat) (e : Err)
    (hrecs : env.getAllRecords config.baseId config.srcTableId = .ok records)
    (hk : k < (chunks batchSize (records.map
      (fun r => airtableToGristRecord r config.mapping))).length)
    (hok : ∀ j, j < k →
      env.addRecordsToTable config.documentId config.destTableId j
        ((chunks batchSize (records.map
          (fun r => airtableToGristRecord r config.mapping))).getD j []) =
        .ok ())
    (hfail : env.addRecordsToTable config.documentId config.destTableId k
      ((chunks batchSize (records.map
        (fun r => airtableToGristRecord r config.mapping))).getD k []) =
      .error e) :
    (migrateTable env config).2 = .error e ∧
    (migrateTable env config).1.map Prod.snd =
      (chunks batchSize (records.map
        (fun r => airtableToGristRecord r config.mapping))).take (k + 1) := by
  have hne : records.length ≠ 0 := by
    intro h0
    obtain rfl : records = [] := List.length_eq_zero.mp h0
    simp [chunks] at hk
  simp only [migrateTable, hrecs]
  rw [if_neg hne]
  exact sendBatches_fail _ _ 0 k e hk
    (by intro j hj; simpa using hok j hj)
    (by simpa using hfail)

/-- Witness for C5: `envBatchFail` serves 250 records (three batches) and
rejects every batch send from index 1 on; the run fails with that error
after issuing exactly batches 0 and 1. -/
theorem claim5_batch_failfast_witness :
    envBatchFail.getAllRecords "base" "t1" =
      .ok (List.replicate 250 ⟨[]⟩) ∧
    (1 < (chunks batchSize ((List.replicate 250 (⟨[]⟩ : AirtableRecordT)).map
      (fun r => airtableToGristRecord r []))).length) ∧
    (migrateTable envBatchFail ⟨"base", "t1", "doc1", "g1", []⟩).2 =
      .error (.api 413 "too large") ∧
    (migrateTable envBatchFail ⟨"base", "t1", "doc1", "g1", []⟩).1.map
        Prod.snd =
      (chunks batchSize ((List.replicate 250 (⟨[]⟩ : AirtableRecordT)).map
        (fun r => airtableToGristRecord r []))).take 2 := by
  have h := claim5_batch_failfast envBatchFail ⟨"base", "t1", "doc1", "g1", []⟩
    (List.replicate 250 ⟨[]⟩) 1 (.api 413 "too large") rfl
    (by
      rw [chunks_length]
      simp only [List.length_map, List.length_replicate]
      decide)
    (by
      intro j hj
      have hj0 : j = 0 := by omega
      subst hj0
      rfl)
    rfl
  refine ⟨rfl, ?_, h.1, h.2⟩
  rw [chunks_length]
  simp only [List.length_map, List.length_replicate]
  decide

/-! ## Characterization of the per-table loop of `migrateTables` -/

/-- The table ids accumulated by the loop are, in order, the created table
ids of exactly the successfully migrated tables. -/
theorem migrateLoop_tableIds (env : Env) (baseId documentId : String)
    (createdTableIds : List String) (total : Nat) :
    ∀ (prepared : List PreparedTable) (i : Nat),
      (migrateLoop env baseId documentId createdTableIds total i
          prepared).2.1 =
        (List.enumFrom i prepared).filterMap
          (succTableId env baseId documentId createdTableIds)
  | [], i => by simp [migrateLoop, List.enumFrom]
  | p :: rest, i => by
    have ih := migrateLoop_tableIds env baseId documentId createdTableIds
      total rest (i + 1)
    cases ho : tableOutcome env baseId documentId createdTableIds i p with
    | ok u =>
      simp [migrateLoop, List.enumFrom, List.filterMap_cons, succTableId,
        ho, ih]
    | error e =>
      simp [migrateLoop, List.enumFrom, List.filterMap_cons, succTableId,
        ho, ih]

/-- The errors accumulated by the loop are, in order, the errors of exactly
the failed tables. -/
theorem migrateLoop_errors (env : Env) (baseId documentId : String)
    (createdTableIds : List String) (total : Nat) :
    ∀ (prepared : List PreparedTable) (i : Nat),
      (migrateLoop env baseId documentId createdTableIds total i
          prepared).2.2 =
        (List.enumFrom i prepared).filterMap
          (failErr env baseId documentId createdTableIds)
  | [], i => by simp [migrateLoop, List.enumFrom]
  | p :: rest, i => by
    have ih := migrateLoop_errors env baseId documentId createdTableIds
      total rest (i + 1)
    cases ho : tableOutcome env baseId documentId createdTableIds i p with
    | ok u =>
      simp [migrateLoop, List.enumFrom, List.filterMap_cons, failErr, ho, ih]
    | error e =>
      simp [migrateLoop, List.enumFrom, List.filterMap_cons, failErr, ho, ih]

/-- Every table reached by the loop gets its `migrating` progress event —
the loop never stops early. -/
theorem migrateLoop_mem_migrating (env : Env) (baseId documentId : String)
    (createdTableIds : List String) (total : Nat) :
    ∀ (prepared : List PreparedTable) (i j : Nat) (q : PreparedTable),
      prepared[j]? = some q →
      (⟨i + j + 1, total, q.schema.name, .migrating, none⟩ : ProgressEvent) ∈
        (migrateLoop env baseId documentId createdTableIds total i prepared).1
  | [], _, j, q, h => by simp at h
  | p :: rest, i, 0, q, h => by
    obtain rfl : p = q := by simpa using h
    cases ho : tableOutcome env baseId documentId createdTableIds i p <;>
      simp [migrateLoop, ho]
  | p :: rest, i, j + 1, q, h => by
    have ih := migrateLoop_mem_migrating env baseId documentId createdTableIds
      total rest (i + 1) j q (by simpa using h)
    rw [show i + 1 + j = i + (j + 1) by omega] at ih
    cases ho : tableOutcome env baseId documentId createdTableIds i p with
    | ok u => simp only [migrateLoop, ho]; exact List.mem_cons_of_mem _ ih
    | error e =>
      simp only [migrateLoop, ho]
      exact List.mem_cons_of_mem _ (List.mem_cons_of_mem _ ih)

/-- A failed table contributes its error event and its error to the loop's
trace and error list. -/
theorem migrateLoop_mem_error (env : Env) (baseId documentId : String)
    (createdTableIds : List String) (total : Nat) :
    ∀ (prepared : List PreparedTable) (i j : Nat) (q : PreparedTable)
      (e : Err),
      prepared[j]? = some q →
      tableOutcome env baseId documentId createdTableIds (i + j) q =
        .error e →
      (⟨i + j + 1, total, q.schema.name, .error, some e⟩ : ProgressEvent) ∈
        (migrateLoop env baseId documentId createdTableIds total i
          prepared).1 ∧
      e ∈ (migrateLoop env baseId documentId createdTableIds total i
          prepared).2.2
  | [], _, j, q, e, h, _ => by simp at h
  | p :: rest, i, 0, q, e, h, hfail => by
    obtain rfl : p = q := by simpa using h
    rw [Nat.add_zero] at hfail
    simp [migrateLoop, hfail]
  | p :: rest, i, j + 1, q, e, h, hfail => by
    have ih := migrateLoop_mem_error env baseId documentId createdTableIds
      total rest (i + 1) j q e (by simpa using h)
      (by rw [show i + 1 + j = i + (j + 1) by omega]; exact hfail)
    rw [show i + 1 + j = i + (j + 1) by omega] at ih
    cases ho : tableOutcome env baseId documentId createdTableIds i p with
    | ok u =>
      simp only [migrateLoop, ho]
      exact ⟨List.mem_cons_of_mem _ ih.1, ih.2⟩
    | error e' =>
      simp only [migrateLoop, ho]
      exact ⟨List.mem_cons_of_mem _ (List.mem_cons_of_mem _ ih.1),
        List.mem_cons_of_mem _ ih.2⟩

/-- Success and failure of a table are complementary, so the two filtered
lists partition the table indices. -/
theorem filterMap_complement_length {α β γ : Type} (f : α → Option β)
    (g : α → Option γ) (h : ∀ a, (f a).isSome ↔ (g a) = none) :
    ∀ l : List α, (l.filterMap f).length + (l.filterMap g).length = l.length
  | [] => rfl
  | a :: t => by
    have ih := filterMap_complement_length f g h t
    cases hf : f a with
    | some b =>
      have hg : g a = none := (h a).mp (by simp [hf])
      simp only [List.filterMap_cons, hf, hg, List.length_cons]
      omega
    | none =>
      cases hg : g a with
      | some c =>
        simp only [List.filterMap_cons, hf, hg, List.length_cons]
        omega
      | none =>
        have : (f a).isSome := (h a).mpr hg
        rw [hf] at this
        exact absurd this (by simp)

/-- `fetchAndTranslate` succeeds with one prepared table per source table
id. -/
theorem fetchAndTranslate_length (env : Env) (baseId : String) :
    ∀ (tableIds : List String) (prepared : List PreparedTable),
      fetchAndTranslate env baseId tableIds = .ok prepared →
      prepared.length = tableIds.length
  | [], prepared, h => by
    simp only [fetchAndTranslate, Except.ok.injEq] at h
    rw [← h]
    rfl
  | t :: ts, prepared, h => by
    cases hs : env.getTableSchema baseId t with
    | error e => simp [fetchAndTranslate, hs] at h
    | ok tableSchema =>
      cases ht : airtableToGristTable tableSchema with
      | none => simp [fetchAndTranslate, hs, ht] at h
      | some gm =>
        obtain ⟨g, m⟩ := gm
        cases hr : fetchAndTranslate env baseId ts with
        | error e => simp [fetchAndTranslate, hs, ht, hr] at h
        | ok rest =>
          simp only [fetchAndTranslate, hs, ht, hr, Except.ok.injEq] at h
          rw [← h]
          simp [fetchAndTranslate_length env baseId ts rest hr]

/-- When all three setup steps succeed, `migrateTables` runs the loop and
resolves, with the fixed event prefix and the `complete` suffix. -/
theorem migrateTables_ok (env : Env) (baseId : String)
    (tableIds : List String) (workspaceId : Nat) (documentName : String)
    (documentId : String) (prepared : List PreparedTable)
    (createdTableIds : List String)
    (hdoc : env.createDocument workspaceId documentName = .ok documentId)
    (hfetch : fetchAndTranslate env baseId tableIds = .ok prepared)
    (hadd : env.addTablesToDocument documentId
      (prepared.map (fun p => p.gristTable)) = .ok createdTableIds) :
    migrateTables env baseId tableIds workspaceId documentName =
      (([⟨0, tableIds.length, "", .creating, none⟩,
         ⟨0, tableIds.length, "", .fetching, none⟩,
         ⟨0, tableIds.length, "", .creating, none⟩] ++
        (migrateLoop env baseId documentId createdTableIds tableIds.length
          0 prepared).1) ++
        [⟨tableIds.length, tableIds.length, "", .complete, none⟩],
       .ok ⟨documentId,
         (migrateLoop env baseId documentId createdTableIds tableIds.length
           0 prepared).2.1,
         (migrateLoop env baseId documentId createdTableIds tableIds.length
           0 prepared).2.2⟩) := by
  simp [migrateTables, hdoc, hfetch, hadd]

/-! ## C3 — fatal failure of the destination container creation -/

/-- C3: when `createDocument` rejects with `e`, `migrateTables` rejects
with that same error, no `MigrationResult` is produced, the emitted trace
is exactly the initial `creating` event followed by an `error` event
carrying `e` (so the error event precedes the rejection), and no
`migrating` event is ever emitted during the run. -/
theorem claim3_fatal_createDocument_failure (env : Env) (baseId : String)
    (tableIds : List String) (workspaceId : Nat) (documentName : String)
    (e : Err)
    (hdoc : env.createDocument workspaceId documentName = .error e) :
    migrateTables env baseId tableIds workspaceId documentName =
      ([⟨0, tableIds.length, "", .creating, none⟩,
        ⟨0, tableIds.length, "", .error, some e⟩], .error e) ∧
    (migrateTables env baseId tableIds workspaceId documentName).2 =
      .error e ∧
    (⟨0, tableIds.length, "", .error, some e⟩ : ProgressEvent) ∈
      (migrateTables env baseId tableIds workspaceId documentName).1 ∧
    (∀ ev ∈ (migrateTables env baseId tableIds workspaceId documentName).1,
      ev.status ≠ .migrating) := by
  have hrun : migrateTables env baseId tableIds workspaceId documentName =
      ([⟨0, tableIds.length, "", .creating, none⟩,
        ⟨0, tableIds.length, "", .error, some e⟩], .error e) := by
    simp [migrateTables, hdoc]
  refine ⟨hrun, by rw [hrun], by rw [hrun]; simp, ?_⟩
  intro ev hev
  rw [hrun] at hev
  rcases List.mem_cons.mp hev with rfl | hev
  · simp
  · rcases List.mem_cons.mp hev with rfl | hev
    · simp
    · simp at hev

/-- Witness for C3: under `envFailDoc` the run emits exactly the `creating`
and `error` events and rejects. -/
theorem claim3_fatal_createDocument_failure_witness :
    envFailDoc.createDocument 7 "Doc" = .error (.api 500 "boom") ∧
    migrateTables envFailDoc "base" ["t1", "t2"] 7 "Doc" =
      ([⟨0, 2, "", .creating, none⟩,
        ⟨0, 2, "", .error, some (.api 500 "boom")⟩],
       .error (.api 500 "boom")) ∧
    (migrateTables envFailDoc "base" ["t1", "t2"] 7 "Doc").2 =
      .error (.api 500 "boom") :=
  ⟨rfl,
   (claim3_fatal_createDocument_failure envFailDoc "base" ["t1", "t2"] 7
     "Doc" (.api 500 "boom") rfl).1,
   (claim3_fatal_createDocument_failure envFailDoc "base" ["t1", "t2"] 7
     "Doc" (.api 500 "boom") rfl).2.1⟩

/-! ## C2 — per-table failures are isolated -/

/-- C2: with container creation, schema fetching and table creation all
succeeding, a failure of table `k`'s data migration is caught inside
`migrateTables`: the error is appended to the result's `errors`, an
`error` progress event with `currentTable = k + 1` is emitted, every table
still gets its `migrating` event (the run continues with the next table),
and the run resolves with a `MigrationResult` rather than rejecting. -/
theorem claim2_per_table_failure_isolated (env : Env) (baseId : String)
    (tableIds : List String) (workspaceId : Nat) (documentName : String)
    (documentId : String) (prepared : List PreparedTable)
    (createdTableIds : List String) (k : Nat) (p : PreparedTable) (e : Err)
    (hdoc : env.createDocument workspaceId documentName = .ok documentId)
    (hfetch : fetchAndTranslate env baseId tableIds = .ok prepared)
    (hadd : env.addTablesToDocument documentId
      (prepared.map (fun q => q.gristTable)) = .ok createdTableIds)
    (hp : prepared[k]? = some p)
    (hfail : tableOutcome env baseId documentId createdTableIds k p =
      .error e) :
    ∃ r : MigrationResult,
      (migrateTables env baseId tableIds workspaceId documentName).2 =
        .ok r ∧
      e ∈ r.errors ∧
      (⟨k + 1, tableIds.length, p.schema.name, .error, some e⟩ :
          ProgressEvent) ∈
        (migrateTables env baseId tableIds workspaceId documentName).1 ∧
      (∀ (j : Nat) (q : PreparedTable), prepared[j]? = some q →
        (⟨j + 1, tableIds.length, q.schema.name, .migrating, none⟩ :
            ProgressEvent) ∈
          (migrateTables env baseId tableIds workspaceId documentName).1) := by
  have hrun := migrateTables_ok env baseId tableIds workspaceId documentName
    documentId prepared createdTableIds hdoc hfetch hadd
  have herr := migrateLoop_mem_error env baseId documentId createdTableIds
    tableIds.length prepared 0 k p e hp (by simpa using hfail)
  simp only [Nat.zero_add] at herr
  refine ⟨⟨documentId,
    (migrateLoop env baseId documentId createdTableIds tableIds.length 0
      prepared).2.1,
    (migrateLoop env baseId documentId createdTableIds tableIds.length 0
      prepared).2.2⟩, ?_, herr.2, ?_, ?_⟩
  · rw [hrun]
  · rw [hrun]
    exact List.mem_append_left _ (List.mem_append_right _ herr.1)
  · intro j q hq
    have hm := migrateLoop_mem_migrating env baseId documentId
      createdTableIds tableIds.length prepared 0 j q hq
    simp only [Nat.zero_add] at hm
    rw [hrun]
    exact List.mem_append_left _ (List.mem_append_right _ hm)

/-- Witness for C2 under `envTwo`: table `"t1"`'s record fetch rejects,
yet the run resolves with table `"t2"` migrated, the error recorded, the
error event for table 1 and the migrating event for table 2 both
emitted. -/
theorem claim2_per_table_failure_isolated_witness :
    envTwo.createDocument 7 "Doc" = .ok "doc1" ∧
    tableOutcome envTwo "base" "doc1" ["g1", "g2"] 0
      ⟨"t1", ⟨"t1", []⟩, ⟨"t1", []⟩, []⟩ = .error (.api 502 "fetch failed") ∧
    (migrateTables envTwo "base" ["t1", "t2"] 7 "Doc").2 =
      .ok ⟨"doc1", ["g2"], [.api 502 "fetch failed"]⟩ ∧
    (⟨1, 2, "t1", .error, some (.api 502 "fetch failed")⟩ :
        ProgressEvent) ∈
      (migrateTables envTwo "base" ["t1", "t2"] 7 "Doc").1 ∧
    (⟨2, 2, "t2", .migrating, none⟩ : ProgressEvent) ∈
      (migrateTables envTwo "base" ["t1", "t2"] 7 "Doc").1 := by
  obtain ⟨r, hr, herr, hev, hmig⟩ :=
    claim2_per_table_failure_isolated envTwo "base" ["t1", "t2"] 7 "Doc"
      "doc1"
      [⟨"t1", ⟨"t1", []⟩, ⟨"t1", []⟩, []⟩, ⟨"t2", ⟨"t2", []⟩, ⟨"t2", []⟩, []⟩]
      ["g1", "g2"] 0 ⟨"t1", ⟨"t1", []⟩, ⟨"t1", []⟩, []⟩
      (.api 502 "fetch failed") rfl rfl rfl rfl rfl
  exact ⟨rfl, rfl, by rfl, hev,
    hmig 1 ⟨"t2", ⟨"t2", []⟩, ⟨"t2", []⟩, []⟩ rfl⟩

/-! ## C10 — each table contributes to exactly one result sequence -/

/-- C10: when a run whose setup succeeded resolves, each source table index
contributes to exactly one of the two result sequences — `tableIds` is the
in-order selection of the created table ids of the succeeding tables,
`errors` the in-order errors of the failing ones, their lengths sum to the
number of source table ids, and `errors` is empty iff every table's data
transfer succeeded. -/
theorem claim10_result_partition (env : Env) (baseId : String)
    (tableIds : List String) (workspaceId : Nat) (documentName : String)
    (documentId : String) (prepared : List PreparedTable)
    (createdTableIds : List String) (r : MigrationResult)
    (hdoc : env.createDocument workspaceId documentName = .ok documentId)
    (hfetch : fetchAndTranslate env baseId tableIds = .ok prepared)
    (hadd : env.addTablesToDocument documentId
      (prepared.map (fun q => q.gristTable)) = .ok createdTableIds)
    (hrun : (migrateTables env baseId tableIds workspaceId documentName).2 =
      .ok r) :
    r.tableIds = (List.enumFrom 0 prepared).filterMap
      (succTableId env baseId documentId createdTableIds) ∧
    r.errors = (List.enumFrom 0 prepared).filterMap
      (failErr env baseId documentId createdTableIds) ∧
    r.tableIds.length + r.errors.length = tableIds.length ∧
    (r.errors = [] ↔ ∀ jq ∈ List.enumFrom 0 prepared,
      tableOutcome env baseId documentId createdTableIds jq.1 jq.2 =
        .ok ()) := by
  have hmt := migrateTables_ok env baseId tableIds workspaceId documentName
    documentId prepared createdTableIds hdoc hfetch hadd
  rw [hmt] at hrun
  simp only [Except.ok.injEq] at hrun
  have h1 : r.tableIds = (List.enumFrom 0 prepared).filterMap
      (succTableId env baseId documentId createdTableIds) := by
    rw [← hrun]
    exact migrateLoop_tableIds env baseId documentId createdTableIds
      tableIds.length prepared 0
  have h2 : r.errors = (List.enumFrom 0 prepared).filterMap
      (failErr env baseId documentId createdTableIds) := by
    rw [← hrun]
    exact migrateLoop_errors env baseId documentId createdTableIds
      tableIds.length prepared 0
  have hcompl : ∀ jq : Nat × PreparedTable,
      (succTableId env baseId documentId createdTableIds jq).isSome ↔
      failErr env baseId documentId createdTableIds jq = none := by
    intro jq
    cases ho : tableOutcome env baseId documentId createdTableIds jq.1
        jq.2 with
    | ok u => simp [succTableId, failErr, ho]
    | error e => simp [succTableId, failErr, ho]
  have hiff : ∀ jq : Nat × PreparedTable,
      failErr env baseId documentId createdTableIds jq = none ↔
      tableOutcome env baseId documentId createdTableIds jq.1 jq.2 =
        .ok () := by
    intro jq
    cases ho : tableOutcome env baseId documentId createdTableIds jq.1
        jq.2 with
    | ok u => cases u; simp [failErr, ho]
    | error e => simp [failErr, ho]
  refine ⟨h1, h2, ?_, ?_⟩
  · rw [h1, h2,
      filterMap_complement_length
        (succTableId env baseId documentId createdTableIds)
        (failErr env baseId documentId createdTableIds) hcompl
        (List.enumFrom 0 prepared)]
    rw [List.enumFrom_length]
    exact fetchAndTranslate_length env baseId tableIds prepared hfetch
  · rw [h2, List.filterMap_eq_nil_iff]
    exact ⟨fun h jq hjq => (hiff jq).mp (h jq hjq),
      fun h jq hjq => (hiff jq).mpr (h jq hjq)⟩

/-- Witness for C10 under `envTwo`: one table fails, one succeeds; the
result partitions the two indices and the lengths add up. -/
theorem claim10_result_partition_witness :
    (migrateTables envTwo "base" ["t1", "t2"] 7 "Doc").2 =
      .ok ⟨"doc1", ["g2"], [.api 502 "fetch failed"]⟩ ∧
    (MigrationResult.mk "doc1" ["g2"] [.api 502 "fetch failed"]).tableIds =
      (List.enumFrom 0
        [⟨"t1", ⟨"t1", []⟩, ⟨"t1", []⟩, []⟩,
         (⟨"t2", ⟨"t2", []⟩, ⟨"t2", []⟩, []⟩ : PreparedTable)]).filterMap
        (succTableId envTwo "base" "doc1" ["g1", "g2"]) ∧
    (MigrationResult.mk "doc1" ["g2"] [.api 502 "fetch failed"]).errors =
      (List.enumFrom 0
        [⟨"t1", ⟨"t1", []⟩, ⟨"t1", []⟩, []⟩,
         (⟨"t2", ⟨"t2", []⟩, ⟨"t2", []⟩, []⟩ : PreparedTable)]).filterMap
        (failErr envTwo "base" "doc1" ["g1", "g2"]) ∧
    (MigrationResult.mk "doc1" ["g2"]
        [.api 502 "fetch failed"]).tableIds.length +
      (MigrationResult.mk "doc1" ["g2"]
        [.api 502 "fetch failed"]).errors.length =
      (["t1", "t2"] : List String).length := by
  obtain ⟨h1, h2, h3, -⟩ :=
    claim10_result_partition envTwo "base" ["t1", "t2"] 7 "Doc" "doc1"
      [⟨"t1", ⟨"t1", []⟩, ⟨"t1", []⟩, []⟩, ⟨"t2", ⟨"t2", []⟩, ⟨"t2", []⟩, []⟩]
      ["g1", "g2"] ⟨"doc1", ["g2"], [.api 502 "fetch failed"]⟩
      rfl rfl rfl (by rfl)
  exact ⟨by rfl, h1, h2, h3⟩

end AirGrist
